import Mathlib

/-!
Shallow embedding of the Esya-ticket service (src/app.py, src/test_system.py).

The Flask handlers are modelled as pure functions: the Firestore store is an
association list keyed by ticket id, the clock is passed explicitly (a `Nat`
tick for the register/validate handlers, a structured `PyDateTime` for the
health endpoint which formats it with `isoformat`), environment variables are
`Option String` parameters, and the outcome of the external SMTP send is a
boolean parameter.  Python `None` is modelled by `Option.none`; a request body
that fails to parse to a JSON object (absent body, JSON null, non-JSON
content) is modelled by `none : Option RegisterObj`, matching the fact that
in the source every such body raises inside the handler's `try` and is caught
by the generic `except` clause.
-/

namespace Esya

/-- Python `str.strip()`: drop whitespace from both ends (src/app.py lines
460-461 use `.strip()`). -/
def strip (s : String) : String :=
  ⟨((s.data.dropWhile Char.isWhitespace).reverse.dropWhile Char.isWhitespace).reverse⟩

/-- Lower-case hex digit for a nibble, as produced by Python's `uuid` module
when rendering `uuid.uuid4()` with `str`. -/
def hexDigit (n : Nat) : Char :=
  if n % 16 < 10 then Char.ofNat (48 + n % 16) else Char.ofNat (87 + n % 16)

/-- Nibble `j` (0-based from the most significant) of the 128-bit random
value `r` feeding `uuid.uuid4()`. -/
def nib (r j : Nat) : Nat := (r / 16 ^ (31 - j)) % 16

/-- `str(uuid.uuid4())` (src/app.py line 467): 32 lower-case hex digits in
8-4-4-4-12 groups, with the version nibble (hex digit 12) forced to `4` and
the variant nibble (hex digit 16) forced into `8`-`b`, exactly as the
`uuid` library masks the random bytes. `r` stands for the randomness. -/
def uuid4String (r : Nat) : String :=
  ⟨[hexDigit (nib r 0), hexDigit (nib r 1), hexDigit (nib r 2), hexDigit (nib r 3),
    hexDigit (nib r 4), hexDigit (nib r 5), hexDigit (nib r 6), hexDigit (nib r 7), '-',
    hexDigit (nib r 8), hexDigit (nib r 9), hexDigit (nib r 10), hexDigit (nib r 11), '-',
    '4', hexDigit (nib r 13), hexDigit (nib r 14), hexDigit (nib r 15), '-',
    hexDigit (8 + nib r 16 % 4), hexDigit (nib r 17), hexDigit (nib r 18), hexDigit (nib r 19), '-',
    hexDigit (nib r 20), hexDigit (nib r 21), hexDigit (nib r 22), hexDigit (nib r 23),
    hexDigit (nib r 24), hexDigit (nib r 25), hexDigit (nib r 26), hexDigit (nib r 27),
    hexDigit (nib r 28), hexDigit (nib r 29), hexDigit (nib r 30), hexDigit (nib r 31)]⟩

/-- Lower-case hex digit character test. -/
def isHexChar (c : Char) : Bool :=
  (('0' ≤ c && c ≤ '9') || ('a' ≤ c && c ≤ 'f'))

/-- Well-formed canonical UUID v4 string: 36 characters, hyphens at indices
8, 13, 18, 23, the character at index 14 equal to `4`, the character at
index 19 in `8`/`9`/`a`/`b`, all remaining characters lower-case hex. -/
def isUUIDv4 (s : String) : Bool :=
  match s.data with
  | a0::a1::a2::a3::a4::a5::a6::a7:: h1 ::b0::b1::b2::b3:: h2 ::v::c1::c2::c3:: h3 ::
    w::d1::d2::d3:: h4 ::e0::e1::e2::e3::e4::e5::e6::e7::e8::e9::e10::e11::[] =>
    h1 = '-' && h2 = '-' && h3 = '-' && h4 = '-' && v = '4' &&
    (w = '8' || w = '9' || w = 'a' || w = 'b') &&
    [a0,a1,a2,a3,a4,a5,a6,a7,b0,b1,b2,b3,c1,c2,c3,d1,d2,d3,
     e0,e1,e2,e3,e4,e5,e6,e7,e8,e9,e10,e11].all isHexChar
  | _ => false

/-- The persisted Ticket document (src/app.py lines 474-481): `scanned_at`
is `None` at creation, modelled as `Option.none`. -/
structure Ticket where
  ticket_id : String
  name : String
  email : String
  scanned : Bool
  created_at : Nat
  scanned_at : Option Nat
deriving DecidableEq, Repr

/-- The `tickets` Firestore collection: documents keyed by ticket id. -/
abbrev Store := List (String × Ticket)

/-- `db.collection('tickets').document(id).set(data)` — whole-document write
with overwrite semantics (src/app.py line 483). -/
def storeSet (k : String) (t : Ticket) (s : Store) : Store :=
  (k, t) :: s.filter (fun p => p.1 ≠ k)

/-- `ticket_ref.update(\x7b'scanned': True, 'scanned_at': now\x7d)` — partial
write of the two scan fields of document `k` (src/app.py lines 541-544). -/
def storeUpdateScan (k : String) (now : Nat) (s : Store) : Store :=
  s.map (fun p => if p.1 = k then (p.1, { p.2 with scanned := true, scanned_at := some now }) else p)

/-- SMTP-related environment variables read by `send_email_with_qr`
(src/app.py lines 73-76); `none` models an unset variable. -/
structure EmailEnv where
  smtp_server : Option String
  smtp_port : Option String
  sender_email : Option String
  sender_password : Option String
deriving DecidableEq, Repr

/-- QR symbol configuration and payload, mirroring the `qrcode.QRCode(...)`
constructor arguments plus `add_data`/`make` (src/app.py lines 50-57). -/
inductive ECLevel where
  | L | M | Q | H
deriving DecidableEq, Repr

structure QRCodeObj where
  version : Nat
  error_correction : ECLevel
  box_size : Nat
  border : Nat
  payload : String
  fit : Bool
deriving DecidableEq, Repr

/-- The in-memory image buffer returned by `generate_qr_code`: the encoded
symbol plus the serialization format; no file is written. -/
structure ImageBytes where
  content : QRCodeObj
  fmt : String
deriving DecidableEq, Repr

/-- `generate_qr_code` (src/app.py lines 46-67): build the validation URL
from `BASE_URL` (default `http://localhost:5000`), encode it with version 1,
error-correction L, box size 10, border 4, fit-to-content, and return the
PNG bytes of the rendered image. -/
def generate_qr_code (base_url : Option String) (ticket_id : String) : ImageBytes :=
  let validation_url := (base_url.getD "http://localhost:5000") ++ "/validate/" ++ ticket_id
  let qr : QRCodeObj :=
    { version := 1, error_correction := ECLevel.L, box_size := 10, border := 4,
      payload := validation_url, fit := true }
  { content := qr, fmt := "PNG" }

/-- `send_email_with_qr` (src/app.py lines 69-163): reads SMTP config, fails
(returns `false`) when the sender email or password is unset or empty
(`not all([sender_email, sender_password])`), otherwise composes and sends
the message; `smtpDelivers` models the outcome of the external SMTP
conversation, any exception of which is caught and reported as `false`. -/
def send_email_with_qr (env : EmailEnv) (smtpDelivers : Bool)
    (_name _email _ticket_id : String) (_qr : ImageBytes) : Bool :=
  if env.sender_email.getD "" = "" || env.sender_password.getD "" = "" then false
  else smtpDelivers

/-- A parsed JSON-object request body for `/register`; each field is absent
or a string. -/
structure RegisterObj where
  name : Option String
  email : Option String
deriving DecidableEq, Repr

/-- A JSON response: HTTP status plus the object's key/value pairs. -/
structure JsonResp where
  status : Nat
  fields : List (String × String)
deriving DecidableEq, Repr

/-- `register` (src/app.py lines 455-498).  `body = none` models every
request whose body does not parse to a JSON object (absent body, JSON null,
non-JSON content): in the source these raise inside the `try` block and are
caught by the generic `except`, yielding 500 `Registration failed`.
`r` is the randomness feeding `uuid.uuid4()`, `db` tells whether Firebase
initialization succeeded, `now` is the server clock. -/
def register (db : Bool) (store : Store) (body : Option RegisterObj) (r : Nat)
    (base_url : Option String) (env : EmailEnv) (smtpDelivers : Bool) (now : Nat) :
    JsonResp × Store :=
  match body with
  | none => ({ status := 500, fields := [("error", "Registration failed")] }, store)
  | some data =>
    let name := strip (data.name.getD "")
    let email := strip (data.email.getD "")
    if name = "" ∨ email = "" then
      ({ status := 400, fields := [("error", "Name and email are required")] }, store)
    else
      let ticket_id := uuid4String r
      let qr_code_data := generate_qr_code base_url ticket_id
      let store' :=
        if db then
          storeSet ticket_id
            { ticket_id := ticket_id, name := name, email := email,
              scanned := false, created_at := now, scanned_at := none } store
        else store
      let email_sent := send_email_with_qr env smtpDelivers name email ticket_id qr_code_data
      if email_sent = false then
        ({ status := 500, fields := [("error", "Failed to send email. Please try again.")] }, store')
      else
        ({ status := 201,
           fields := [("message", "Registration successful! Check your email for the QR code."),
                      ("ticket_id", ticket_id)] }, store')

/-- Rendering of a server clock value (`Nat` tick) inside an HTML page;
models both `str(datetime)` and `strftime` display of `datetime.now()`. -/
def timeStr (n : Nat) : String := toString n

/-- Rendering of `ticket_data.get('scanned_at', 'N/A')` in the Already Used
page: the stored `None` prints as `None`, a timestamp prints itself. -/
def optTimeStr : Option Nat → String
  | some n => timeStr n
  | none => "None"

/-- An HTML response: HTTP status plus the rendered page. -/
structure HtmlResp where
  status : Nat
  body : String
deriving DecidableEq, Repr

/-- The Database Error page (src/app.py lines 505-510). -/
def dbErrorPage : String :=
  "\n            <div style=\"text-align: center; padding: 50px; font-family: Arial;\">\n                <h2 style=\"color: red;\">❌ Database Error</h2>\n                <p>Unable to connect to database</p>\n            </div>\n            "

/-- The Invalid Ticket page (src/app.py lines 517-522). -/
def invalidTicketPage : String :=
  "\n            <div style=\"text-align: center; padding: 50px; font-family: Arial;\">\n                <h2 style=\"color: red;\">❌ Invalid Ticket</h2>\n                <p>This ticket does not exist</p>\n            </div>\n            "

/-- Literal chunk of the Already Used page before the name hole
(src/app.py lines 527-533). -/
def usedA : String :=
  "\n            <div style=\"text-align: center; padding: 50px; font-family: Arial;\">\n                <h2 style=\"color: orange;\">⚠️ Already Used</h2>\n                <p>This ticket has already been scanned</p>\n                <div style=\"margin-top: 30px; padding: 20px; background: #f8f9fa; border-radius: 10px;\">\n                    <h3>Ticket Details:</h3>\n                    <p><strong>Name:</strong> "

/-- Literal chunk between the name and email holes. -/
def usedB : String := "</p>\n                    <p><strong>Email:</strong> "

/-- Literal chunk between the email and scanned-at holes. -/
def usedC : String := "</p>\n                    <p><strong>Originally scanned:</strong> "

/-- Literal tail of the Already Used page. -/
def usedD : String := "</p>\n                </div>\n            </div>\n            "

/-- The Already Used page f-string (src/app.py lines 527-538). -/
def renderAlreadyUsed (name email scannedAtTxt : String) : String :=
  usedA ++ name ++ usedB ++ email ++ usedC ++ scannedAtTxt ++ usedD

/-- Literal chunk of the Valid Ticket page before the name hole
(src/app.py lines 546-553). -/
def validA : String :=
  "\n        <div style=\"text-align: center; padding: 50px; font-family: Arial;\">\n            <h1 style=\"color: green;\">✅ Valid Ticket!</h1>\n            <h2 style=\"color: #333; margin-top: 30px;\">Welcome to ESYA Fest!</h2>\n            \n            <div style=\"margin: 30px auto; padding: 30px; background: linear-gradient(135deg, #667eea, #764ba2); color: white; border-radius: 15px; max-width: 400px;\">\n                <h3 style=\"margin-bottom: 20px;\">🎫 Ticket Validated</h3>\n                <p><strong>Name:</strong> "

/-- Literal chunk between the name and email holes. -/
def validB : String := "</p>\n                <p><strong>Email:</strong> "

/-- Literal chunk between the email and entry-time holes. -/
def validC : String := "</p>\n                <p><strong>Entry Time:</strong> "

/-- Literal tail of the Valid Ticket page. -/
def validD : String :=
  "</p>\n            </div>\n            \n            <div style=\"margin-top: 40px; padding: 20px; background: #d4edda; border-radius: 10px; border: 1px solid #c3e6cb;\">\n                <p style=\"color: #155724; font-size: 18px; font-weight: bold;\">\n                    🎉 Enjoy the fest! 🎉\n                </p>\n            </div>\n        </div>\n        "

/-- The Valid Ticket page f-string (src/app.py lines 546-564). -/
def renderValid (name email entryTime : String) : String :=
  validA ++ name ++ validB ++ email ++ validC ++ entryTime ++ validD

/-- `validate_ticket` (src/app.py lines 500-573): database-unavailable check,
document fetch, already-scanned branch (no write, implicit 200), otherwise
the partial update marking the ticket scanned followed by the success page.
`now` is the server clock during handling. -/
def validate_ticket (db : Bool) (store : Store) (ticket_id : String) (now : Nat) :
    HtmlResp × Store :=
  if db = false then
    ({ status := 500, body := dbErrorPage }, store)
  else
    match List.lookup ticket_id store with
    | none => ({ status := 404, body := invalidTicketPage }, store)
    | some t =>
      if t.scanned then
        ({ status := 200, body := renderAlreadyUsed t.name t.email (optTimeStr t.scanned_at) }, store)
      else
        let store' := storeUpdateScan ticket_id now store
        ({ status := 200, body := renderValid t.name t.email (timeStr now) }, store')

/-- A Python `datetime` value as far as `isoformat` is concerned. -/
structure PyDateTime where
  year : Nat
  month : Nat
  day : Nat
  hour : Nat
  minute : Nat
  second : Nat
  microsecond : Nat
deriving DecidableEq, Repr

/-- Decimal digit character. -/
def digitChar (n : Nat) : Char := hexDigit (n % 10)

/-- Two-digit zero-padded decimal rendering (values produced by `datetime`
fit in two digits). -/
def zpad2 (n : Nat) : List Char := [digitChar (n / 10), digitChar n]

/-- Four-digit zero-padded decimal rendering. -/
def zpad4 (n : Nat) : List Char :=
  [digitChar (n / 1000), digitChar (n / 100), digitChar (n / 10), digitChar n]

/-- Six-digit zero-padded decimal rendering. -/
def zpad6 (n : Nat) : List Char :=
  [digitChar (n / 100000), digitChar (n / 10000), digitChar (n / 1000),
   digitChar (n / 100), digitChar (n / 10), digitChar n]

/-- `datetime.isoformat()`: `YYYY-MM-DDTHH:MM:SS` with `.ffffff` appended
exactly when the microsecond field is nonzero. -/
def pyIsoformat (d : PyDateTime) : String :=
  ⟨zpad4 d.year ++ '-' :: zpad2 d.month ++ '-' :: zpad2 d.day ++ 'T' :: zpad2 d.hour ++
   ':' :: zpad2 d.minute ++ ':' :: zpad2 d.second ++
   (if d.microsecond = 0 then [] else '.' :: zpad6 d.microsecond)⟩

/-- Decimal digit character test. -/
def isDigitChar (c : Char) : Bool := '0' ≤ c && c ≤ '9'

/-- ISO-8601 date-time check: `YYYY-MM-DDTHH:MM:SS` optionally followed by
`.ffffff`. -/
def isISO8601 (s : String) : Bool :=
  match s.data with
  | y1::y2::y3::y4:: d1 ::m1::m2:: d2 ::dd1::dd2:: t ::h1::h2:: c1 ::n1::n2:: c2 ::s1::s2::rest =>
    d1 = '-' && d2 = '-' && t = 'T' && c1 = ':' && c2 = ':' &&
    [y1,y2,y3,y4,m1,m2,dd1,dd2,h1,h2,n1,n2,s1,s2].all isDigitChar &&
    (match rest with
     | [] => true
     | dot::u1::u2::u3::u4::u5::u6::[] => dot = '.' && [u1,u2,u3,u4,u5,u6].all isDigitChar
     | _ => false)
  | _ => false

/-- The `/health` JSON body plus status (src/app.py lines 575-582). -/
structure HealthResp where
  http_status : Nat
  status : String
  firebase_connected : Bool
  timestamp : String
deriving DecidableEq, Repr

/-- `health` (src/app.py lines 575-582): always 200, reports whether the
store handle was initialized and the current time in ISO format. -/
def health (db : Bool) (now : PyDateTime) : HealthResp :=
  { http_status := 200, status := "healthy", firebase_connected := db,
    timestamp := pyIsoformat now }

/-- The four invalid-registration request bodies sent by the smoke-test
client (src/test_system.py lines 86-91); the last entry is the empty JSON
object. -/
def smokeInvalidCases : List RegisterObj :=
  [{ name := some "", email := some "test@example.com" },
   { name := some "Test User", email := some "" },
   { name := some "Test User", email := some "invalid-email" },
   { name := none, email := none }]

/-- The smoke-test client's pass criterion for each invalid-registration
case: the response status must be 400 (src/test_system.py lines 104-108). -/
def smokeInvalidCasePasses (status : Nat) : Bool := status == 400

/-- `pat` occurs as a contiguous substring of `s`. -/
def containsSub (s pat : String) : Prop :=
  ∃ a b : List Char, s.data = a ++ (pat.data ++ b)

/-! ### Helper lemmas -/

theorem isHexChar_hexDigit (n : Nat) : isHexChar (hexDigit n) = true := by
  unfold isHexChar hexDigit
  have h : n % 16 < 16 := Nat.mod_lt _ (by norm_num)
  set k := n % 16 with hk
  clear_value k
  interval_cases k <;> decide

theorem hexDigit_variant (m : Nat) :
    (hexDigit (8 + m % 4) = '8' ∨ hexDigit (8 + m % 4) = '9' ∨
     hexDigit (8 + m % 4) = 'a' ∨ hexDigit (8 + m % 4) = 'b') := by
  unfold hexDigit
  have h : m % 4 < 4 := Nat.mod_lt _ (by norm_num)
  set k := m % 4 with hk
  clear_value k
  interval_cases k <;> simp

/-- Every string produced by the modelled `str(uuid.uuid4())` is a
well-formed canonical UUID v4. -/
theorem isUUIDv4_uuid4String (r : Nat) : isUUIDv4 (uuid4String r) = true := by
  have hv := hexDigit_variant (nib r 16)
  simp [isUUIDv4, uuid4String, isHexChar_hexDigit]
  rcases hv with h | h | h | h <;> simp [h]

theorem isDigitChar_digitChar (n : Nat) : isDigitChar (digitChar n) = true := by
  unfold isDigitChar digitChar hexDigit
  have h : n % 10 < 10 := Nat.mod_lt _ (by norm_num)
  set k := n % 10 with hk
  clear_value k
  interval_cases k <;> decide

/-- `datetime.isoformat()` output always passes the ISO-8601 shape check. -/
theorem isISO8601_pyIsoformat (d : PyDateTime) : isISO8601 (pyIsoformat d) = true := by
  by_cases h : d.microsecond = 0 <;>
    simp [isISO8601, pyIsoformat, h, zpad4, zpad2, zpad6, isDigitChar_digitChar]

theorem lookup_storeUpdateScan (k : String) (now : Nat) (s : Store) :
    List.lookup k (storeUpdateScan k now s) =
      (List.lookup k s).map (fun t => { t with scanned := true, scanned_at := some now }) := by
  induction s with
  | nil => rfl
  | cons p rest ih =>
    obtain ⟨pk, pt⟩ := p
    simp only [storeUpdateScan, List.map_cons] at ih ⊢
    by_cases h : pk = k
    · subst h
      rw [if_pos rfl]
      simp [List.lookup]
    · rw [if_neg h]
      have hbeq : (k == pk) = false := by
        simp only [beq_eq_false_iff_ne, ne_eq]
        exact fun hh => h hh.symm
      simp only [List.lookup, hbeq]
      exact ih

theorem lookup_storeSet (k : String) (t : Ticket) (s : Store) :
    List.lookup k (storeSet k t s) = some t := by
  simp [storeSet, List.lookup]

/-! ### Page-containment lemmas -/

/-- `validA` up to the marker. -/
def validAx : String :=
  "\n        <div style=\"text-align: center; padding: 50px; font-family: Arial;\">\n            <h1 style=\"color: green;\">✅ "

/-- `validA` after the marker. -/
def validAy : String :=
  "!</h1>\n            <h2 style=\"color: #333; margin-top: 30px;\">Welcome to ESYA Fest!</h2>\n            \n            <div style=\"margin: 30px auto; padding: 30px; background: linear-gradient(135deg, #667eea, #764ba2); color: white; border-radius: 15px; max-width: 400px;\">\n                <h3 style=\"margin-bottom: 20px;\">🎫 Ticket Validated</h3>\n                <p><strong>Name:</strong> "

set_option maxRecDepth 40000 in
theorem validA_split :
    validA.data = validAx.data ++ (("Valid Ticket").data ++ validAy.data) := by
  decide

/-- `usedA` up to the marker. -/
def usedAx : String :=
  "\n            <div style=\"text-align: center; padding: 50px; font-family: Arial;\">\n                <h2 style=\"color: orange;\">⚠️ "

/-- `usedA` after the marker. -/
def usedAy : String :=
  "</h2>\n                <p>This ticket has already been scanned</p>\n                <div style=\"margin-top: 30px; padding: 20px; background: #f8f9fa; border-radius: 10px;\">\n                    <h3>Ticket Details:</h3>\n                    <p><strong>Name:</strong> "

set_option maxRecDepth 40000 in
theorem usedA_split :
    usedA.data = usedAx.data ++ (("Already Used").data ++ usedAy.data) := by
  decide

/-- `dbErrorPage` up to the marker. -/
def dbErrX : String :=
  "\n            <div style=\"text-align: center; padding: 50px; font-family: Arial;\">\n                <h2 style=\"color: red;\">❌ "

/-- `dbErrorPage` after the marker. -/
def dbErrY : String :=
  "</h2>\n                <p>Unable to connect to database</p>\n            </div>\n            "

set_option maxRecDepth 40000 in
theorem dbErrorPage_split :
    dbErrorPage.data = dbErrX.data ++ (("Database Error").data ++ dbErrY.data) := by
  decide

/-- `invalidTicketPage` after the marker. -/
def invalidY : String :=
  "</h2>\n                <p>This ticket does not exist</p>\n            </div>\n            "

set_option maxRecDepth 40000 in
theorem invalidTicketPage_split :
    invalidTicketPage.data = dbErrX.data ++ (("Invalid Ticket").data ++ invalidY.data) := by
  decide

theorem contains_dbErrorPage : containsSub dbErrorPage "Database Error" :=
  ⟨dbErrX.data, dbErrY.data, dbErrorPage_split⟩

theorem contains_invalidTicketPage : containsSub invalidTicketPage "Invalid Ticket" :=
  ⟨dbErrX.data, invalidY.data, invalidTicketPage_split⟩

theorem renderValid_contains_marker (n e t : String) :
    containsSub (renderValid n e t) "Valid Ticket" := by
  refine ⟨validAx.data,
    validAy.data ++ n.data ++ validB.data ++ e.data ++ validC.data ++ t.data ++ validD.data, ?_⟩
  rw [renderValid]
  simp only [String.data_append, validA_split, List.append_assoc]

theorem renderValid_contains_name (n e t : String) :
    containsSub (renderValid n e t) n := by
  refine ⟨validA.data,
    validB.data ++ e.data ++ validC.data ++ t.data ++ validD.data, ?_⟩
  rw [renderValid]
  simp only [String.data_append, List.append_assoc]

theorem renderValid_contains_email (n e t : String) :
    containsSub (renderValid n e t) e := by
  refine ⟨validA.data ++ n.data ++ validB.data,
    validC.data ++ t.data ++ validD.data, ?_⟩
  rw [renderValid]
  simp only [String.data_append, List.append_assoc]

theorem renderValid_contains_time (n e t : String) :
    containsSub (renderValid n e t) t := by
  refine ⟨validA.data ++ n.data ++ validB.data ++ e.data ++ validC.data, validD.data, ?_⟩
  rw [renderValid]
  simp only [String.data_append, List.append_assoc]

theorem renderAlreadyUsed_contains_marker (n e t : String) :
    containsSub (renderAlreadyUsed n e t) "Already Used" := by
  refine ⟨usedAx.data,
    usedAy.data ++ n.data ++ usedB.data ++ e.data ++ usedC.data ++ t.data ++ usedD.data, ?_⟩
  rw [renderAlreadyUsed]
  simp only [String.data_append, usedA_split, List.append_assoc]

theorem renderAlreadyUsed_contains_name (n e t : String) :
    containsSub (renderAlreadyUsed n e t) n := by
  refine ⟨usedA.data,
    usedB.data ++ e.data ++ usedC.data ++ t.data ++ usedD.data, ?_⟩
  rw [renderAlreadyUsed]
  simp only [String.data_append, List.append_assoc]

theorem renderAlreadyUsed_contains_email (n e t : String) :
    containsSub (renderAlreadyUsed n e t) e := by
  refine ⟨usedA.data ++ n.data ++ usedB.data,
    usedC.data ++ t.data ++ usedD.data, ?_⟩
  rw [renderAlreadyUsed]
  simp only [String.data_append, List.append_assoc]

theorem renderAlreadyUsed_contains_time (n e t : String) :
    containsSub (renderAlreadyUsed n e t) t := by
  refine ⟨usedA.data ++ n.data ++ usedB.data ++ e.data ++ usedC.data, usedD.data, ?_⟩
  rw [renderAlreadyUsed]
  simp only [String.data_append, List.append_assoc]

/-! ### Claim theorems -/

/-- C10: for every POST /register whose body does not parse to a JSON object
(absent body, JSON null, or non-JSON content), the handler fails inside its
generic catch-all and returns HTTP 500 with body error "Registration failed"
rather than the HTTP 400 InvalidInput response, and no Ticket is created. -/
theorem C10_register_nonobject_body (db : Bool) (store : Store) (r : Nat)
    (base : Option String) (env : EmailEnv) (smtp : Bool) (now : Nat) :
    register db store none r base env smtp now =
      ({ status := 500, fields := [("error", "Registration failed")] }, store) := rfl

/-- C9: for every ticket_id, the QR Code Generator encodes exactly the
payload string BASE_URL ++ "/validate/" ++ ticket_id, where BASE_URL
defaults to "http://localhost:5000" when unset, using error-correction
level L, module size 10 pixels, border 4 modules, and returns PNG-encoded
bytes without persisting any file. -/
theorem C9_qr_payload_and_config (base : Option String) (tid : String) :
    generate_qr_code base tid =
      { content := { version := 1, error_correction := ECLevel.L, box_size := 10,
                     border := 4,
                     payload := (base.getD "http://localhost:5000") ++ "/validate/" ++ tid,
                     fit := true },
        fmt := "PNG" } ∧
    (generate_qr_code none tid).content.payload = "http://localhost:5000/validate/" ++ tid := by
  constructor
  · rfl
  · simp [generate_qr_code]

/-- C8: if store initialization fails at process start the service runs in
degraded mode: every GET /validate/\x7bid\x7d returns HTTP 500 with a
"Database Error" page and no store write, and GET /health still returns
HTTP 200 with firebase_connected=false, status "healthy", and an ISO-8601
timestamp. -/
theorem C8_degraded_mode (store : Store) (tid : String) (now : Nat) (d : PyDateTime) :
    validate_ticket false store tid now = ({ status := 500, body := dbErrorPage }, store) ∧
    containsSub dbErrorPage "Database Error" ∧
    health false d =
      { http_status := 200, status := "healthy", firebase_connected := false,
        timestamp := pyIsoformat d } ∧
    isISO8601 (pyIsoformat d) = true := by
  refine ⟨rfl, contains_dbErrorPage, rfl, isISO8601_pyIsoformat d⟩

/-- C7: for every ticket_id with no corresponding Ticket document in the
store (store available), GET /validate/\x7bid\x7d returns HTTP 404 with an
HTML page containing "Invalid Ticket", and writes nothing to the store. -/
theorem C7_validate_unknown_ticket (store : Store) (tid : String) (now : Nat)
    (hfind : List.lookup tid store = none) :
    validate_ticket true store tid now = ({ status := 404, body := invalidTicketPage }, store) ∧
    containsSub invalidTicketPage "Invalid Ticket" := by
  refine ⟨?_, contains_invalidTicketPage⟩
  simp [validate_ticket, hfind]

/-- C7 witness: the empty store and the zero UUID. -/
theorem C7_validate_unknown_ticket_witness :
    validate_ticket true [] "00000000-0000-0000-0000-000000000000" 0 =
      ({ status := 404, body := invalidTicketPage }, []) ∧
    containsSub invalidTicketPage "Invalid Ticket" :=
  C7_validate_unknown_ticket [] "00000000-0000-0000-0000-000000000000" 0 rfl

/-- C4: for every POST /register whose JSON-object body yields an empty name
or empty email after trimming (including the empty object), the response is
HTTP 400 with body error "Name and email are required" and no Ticket is
created (store state unchanged). -/
theorem C4_register_empty_fields (db : Bool) (store : Store) (data : RegisterObj)
    (r : Nat) (base : Option String) (env : EmailEnv) (smtp : Bool) (now : Nat)
    (h : strip (data.name.getD "") = "" ∨ strip (data.email.getD "") = "") :
    register db store (some data) r base env smtp now =
      ({ status := 400, fields := [("error", "Name and email are required")] }, store) := by
  simp only [register, if_pos h]

/-- C4 witness: the empty JSON object body. -/
theorem C4_register_empty_fields_witness :
    register true [] (some { name := none, email := none }) 0 none
      { smtp_server := none, smtp_port := none, sender_email := none, sender_password := none }
      true 0 =
      ({ status := 400, fields := [("error", "Name and email are required")] }, []) :=
  C4_register_empty_fields true [] { name := none, email := none } 0 none
    { smtp_server := none, smtp_port := none, sender_email := none, sender_password := none }
    true 0 (Or.inl (by decide))

/-- C1: for every POST /register whose JSON body has non-empty name and
email after trimming, when the store is available and email delivery
succeeds, the response is HTTP 201 with the fixed success message and a
ticket_id that is a well-formed UUID v4, and immediately afterwards the
store holds a Ticket document keyed by that id with scanned=false and
scanned_at absent. -/
theorem C1_register_success (store : Store) (data : RegisterObj) (r : Nat)
    (base : Option String) (env : EmailEnv) (smtp : Bool) (now : Nat)
    (hname : strip (data.name.getD "") ≠ "")
    (hemail : strip (data.email.getD "") ≠ "")
    (hsend : send_email_with_qr env smtp (strip (data.name.getD "")) (strip (data.email.getD ""))
      (uuid4String r) (generate_qr_code base (uuid4String r)) = true) :
    (register true store (some data) r base env smtp now).1.status = 201 ∧
    (register true store (some data) r base env smtp now).1.fields =
      [("message", "Registration successful! Check your email for the QR code."),
       ("ticket_id", uuid4String r)] ∧
    isUUIDv4 (uuid4String r) = true ∧
    ∃ t : Ticket,
      List.lookup (uuid4String r) (register true store (some data) r base env smtp now).2 =
        some t ∧
      t.scanned = false ∧ t.scanned_at = none := by
  have hguard : ¬(strip (data.name.getD "") = "" ∨ strip (data.email.getD "") = "") := by
    rintro (h | h)
    · exact hname h
    · exact hemail h
  simp only [register, if_neg hguard, hsend, if_true, if_pos]
  refine ⟨by simp, by simp, isUUIDv4_uuid4String r, ?_⟩
  refine ⟨{ ticket_id := uuid4String r, name := strip (data.name.getD ""),
            email := strip (data.email.getD ""), scanned := false, created_at := now,
            scanned_at := none }, ?_, rfl, rfl⟩
  simpa using lookup_storeSet (uuid4String r) _ store

/-- C2: for every stored Ticket with scanned=false, GET /validate (store
available) returns HTTP 200 with a page containing "Valid Ticket" showing
name, email and the current validation timestamp, and afterwards the
Ticket's scanned field is true with scanned_at set to a timestamp no
earlier than the request. -/
theorem C2_validate_unscanned (store : Store) (tid : String) (t : Ticket)
    (reqTime now : Nat)
    (hfind : List.lookup tid store = some t)
    (hsc : t.scanned = false)
    (hreq : reqTime ≤ now) :
    (validate_ticket true store tid now).1.status = 200 ∧
    containsSub (validate_ticket true store tid now).1.body "Valid Ticket" ∧
    containsSub (validate_ticket true store tid now).1.body t.name ∧
    containsSub (validate_ticket true store tid now).1.body t.email ∧
    containsSub (validate_ticket true store tid now).1.body (timeStr now) ∧
    ∃ ts : Nat,
      List.lookup tid (validate_ticket true store tid now).2 =
        some { t with scanned := true, scanned_at := some ts } ∧
      reqTime ≤ ts := by
  have hres : validate_ticket true store tid now =
      ({ status := 200, body := renderValid t.name t.email (timeStr now) },
       storeUpdateScan tid now store) := by
    simp [validate_ticket, hfind, hsc]
  rw [hres]
  refine ⟨rfl, renderValid_contains_marker _ _ _, renderValid_contains_name _ _ _,
    renderValid_contains_email _ _ _, renderValid_contains_time _ _ _, now, ?_, hreq⟩
  rw [lookup_storeUpdateScan, hfind]
  rfl

/-- C3: for every stored Ticket with scanned=true, GET /validate returns
HTTP 200 with a page containing "Already Used" showing name, email and the
original scanned_at, and performs no store write: the store, and so every
field of the Ticket, is unchanged by the request. -/
theorem C3_validate_already_scanned (store : Store) (tid : String) (t : Ticket) (now : Nat)
    (hfind : List.lookup tid store = some t)
    (hsc : t.scanned = true) :
    (validate_ticket true store tid now).1.status = 200 ∧
    containsSub (validate_ticket true store tid now).1.body "Already Used" ∧
    containsSub (validate_ticket true store tid now).1.body t.name ∧
    containsSub (validate_ticket true store tid now).1.body t.email ∧
    containsSub (validate_ticket true store tid now).1.body (optTimeStr t.scanned_at) ∧
    (validate_ticket true store tid now).2 = store := by
  have hres : validate_ticket true store tid now =
      ({ status := 200, body := renderAlreadyUsed t.name t.email (optTimeStr t.scanned_at) },
       store) := by
    simp [validate_ticket, hfind, hsc]
  rw [hres]
  exact ⟨rfl, renderAlreadyUsed_contains_marker _ _ _, renderAlreadyUsed_contains_name _ _ _,
    renderAlreadyUsed_contains_email _ _ _, renderAlreadyUsed_contains_time _ _ _, rfl⟩

/-- C5: if email delivery fails during POST /register (including missing
sender credentials), the response is HTTP 500 with the fixed
delivery-failure error body, and because the store write precedes email
dispatch, the Ticket written for that request (store available) still
exists in the store with scanned=false after the failing response — there
is no rollback. -/
theorem C5_email_failure_no_rollback (store : Store) (data : RegisterObj) (r : Nat)
    (base : Option String) (env : EmailEnv) (smtp : Bool) (now : Nat)
    (hname : strip (data.name.getD "") ≠ "")
    (hemail : strip (data.email.getD "") ≠ "")
    (hsend : send_email_with_qr env smtp (strip (data.name.getD "")) (strip (data.email.getD ""))
      (uuid4String r) (generate_qr_code base (uuid4String r)) = false) :
    (register true store (some data) r base env smtp now).1 =
      { status := 500, fields := [("error", "Failed to send email. Please try again.")] } ∧
    ∃ t : Ticket,
      List.lookup (uuid4String r) (register true store (some data) r base env smtp now).2 =
        some t ∧
      t.scanned = false := by
  have hguard : ¬(strip (data.name.getD "") = "" ∨ strip (data.email.getD "") = "") := by
    rintro (h | h)
    · exact hname h
    · exact hemail h
  simp only [register, if_neg hguard, hsend]
  refine ⟨by simp, ?_⟩
  refine ⟨{ ticket_id := uuid4String r, name := strip (data.name.getD ""),
            email := strip (data.email.getD ""), scanned := false, created_at := now,
            scanned_at := none }, ?_, rfl⟩
  simpa using lookup_storeSet (uuid4String r) _ store

/-- C6: POST /register performs no email-format validation: for every body
with non-empty trimmed name and any non-empty trimmed email (for example
the malformed "invalid-email"), the request is never rejected with HTTP 400
and proceeds to ticket creation, even though the smoke-test client expects
its third invalid-registration case (that malformed email) to be rejected
with 400. -/
theorem C6_no_email_format_validation (store : Store) (data : RegisterObj) (r : Nat)
    (base : Option String) (env : EmailEnv) (smtp : Bool) (now : Nat)
    (hname : strip (data.name.getD "") ≠ "")
    (hemail : strip (data.email.getD "") ≠ "") :
    (register true store (some data) r base env smtp now).1.status ≠ 400 ∧
    (∃ t : Ticket,
      List.lookup (uuid4String r) (register true store (some data) r base env smtp now).2 =
        some t) ∧
    smokeInvalidCases.getD 2 { name := none, email := none } =
      { name := some "Test User", email := some "invalid-email" } ∧
    (∀ env' : EmailEnv, env'.sender_email.getD "" ≠ "" → env'.sender_password.getD "" ≠ "" →
      (register true store
          (some { name := some "Test User", email := some "invalid-email" })
          r base env' true now).1.status = 201 ∧
      smokeInvalidCasePasses
        (register true store
            (some { name := some "Test User", email := some "invalid-email" })
            r base env' true now).1.status = false) := by
  have hguard : ¬(strip (data.name.getD "") = "" ∨ strip (data.email.getD "") = "") := by
    rintro (h | h)
    · exact hname h
    · exact hemail h
  refine ⟨?_, ?_, rfl, ?_⟩
  · by_cases hs : send_email_with_qr env smtp (strip (data.name.getD ""))
        (strip (data.email.getD "")) (uuid4String r)
        (generate_qr_code base (uuid4String r)) = true
    · simp [register, if_neg hguard, hs]
    · rw [Bool.not_eq_true] at hs
      simp [register, if_neg hguard, hs]
  · refine ⟨{ ticket_id := uuid4String r, name := strip (data.name.getD ""),
              email := strip (data.email.getD ""), scanned := false, created_at := now,
              scanned_at := none }, ?_⟩
    by_cases hs : send_email_with_qr env smtp (strip (data.name.getD ""))
        (strip (data.email.getD "")) (uuid4String r)
        (generate_qr_code base (uuid4String r)) = true
    · simp only [register, if_neg hguard, hs]
      simpa using lookup_storeSet (uuid4String r) _ store
    · rw [Bool.not_eq_true] at hs
      simp only [register, if_neg hguard, hs]
      simpa using lookup_storeSet (uuid4String r) _ store
  · intro env' he hp
    have hn3 : ¬(strip "Test User" = "") := by decide
    have he3 : ¬(strip "invalid-email" = "") := by decide
    have hsend3 : ∀ n e tid q, send_email_with_qr env' true n e tid q = true := by
      intro n e tid q
      simp [send_email_with_qr, he, hp]
    constructor
    · simp [register, hn3, he3, hsend3]
    · simp [register, hn3, he3, hsend3, smokeInvalidCasePasses]

/-- Concrete SMTP environment with credentials configured. -/
def envWithCreds : EmailEnv :=
  { smtp_server := none, smtp_port := none,
    sender_email := some "esya@example.com", sender_password := some "pw" }

/-- Concrete SMTP environment with the sender credential absent. -/
def envNoCreds : EmailEnv :=
  { smtp_server := none, smtp_port := none, sender_email := none, sender_password := none }

/-- Concrete request body used by the smoke-test client. -/
def testUserBody : RegisterObj := { name := some "Test User", email := some "test@example.com" }

/-- Concrete unscanned ticket for validation witnesses. -/
def ticketW : Ticket :=
  { ticket_id := "id1", name := "Test User", email := "test@example.com",
    scanned := false, created_at := 0, scanned_at := none }

/-- Concrete already-scanned ticket for validation witnesses. -/
def ticketScannedW : Ticket :=
  { ticket_id := "id2", name := "Test User", email := "test@example.com",
    scanned := true, created_at := 0, scanned_at := some 5 }

/-- C1 witness: a concrete successful registration against the empty store. -/
theorem C1_register_success_witness :
    (register true [] (some testUserBody) 0 none envWithCreds true 0).1.status = 201 ∧
    (register true [] (some testUserBody) 0 none envWithCreds true 0).1.fields =
      [("message", "Registration successful! Check your email for the QR code."),
       ("ticket_id", uuid4String 0)] ∧
    isUUIDv4 (uuid4String 0) = true ∧
    ∃ t : Ticket,
      List.lookup (uuid4String 0) (register true [] (some testUserBody) 0 none envWithCreds true 0).2 =
        some t ∧
      t.scanned = false ∧ t.scanned_at = none :=
  C1_register_success [] testUserBody 0 none envWithCreds true 0
    (by decide) (by decide) (by decide)

/-- C2 witness: validating a concrete unscanned ticket. -/
theorem C2_validate_unscanned_witness :
    (validate_ticket true [("id1", ticketW)] "id1" 1).1.status = 200 ∧
    containsSub (validate_ticket true [("id1", ticketW)] "id1" 1).1.body "Valid Ticket" ∧
    containsSub (validate_ticket true [("id1", ticketW)] "id1" 1).1.body ticketW.name ∧
    containsSub (validate_ticket true [("id1", ticketW)] "id1" 1).1.body ticketW.email ∧
    containsSub (validate_ticket true [("id1", ticketW)] "id1" 1).1.body (timeStr 1) ∧
    ∃ ts : Nat,
      List.lookup "id1" (validate_ticket true [("id1", ticketW)] "id1" 1).2 =
        some { ticketW with scanned := true, scanned_at := some ts } ∧
      0 ≤ ts :=
  C2_validate_unscanned [("id1", ticketW)] "id1" ticketW 0 1
    (by decide) (by decide) (by decide)

/-- C3 witness: validating a concrete already-scanned ticket. -/
theorem C3_validate_already_scanned_witness :
    (validate_ticket true [("id2", ticketScannedW)] "id2" 7).1.status = 200 ∧
    containsSub (validate_ticket true [("id2", ticketScannedW)] "id2" 7).1.body "Already Used" ∧
    containsSub (validate_ticket true [("id2", ticketScannedW)] "id2" 7).1.body ticketScannedW.name ∧
    containsSub (validate_ticket true [("id2", ticketScannedW)] "id2" 7).1.body ticketScannedW.email ∧
    containsSub (validate_ticket true [("id2", ticketScannedW)] "id2" 7).1.body
      (optTimeStr ticketScannedW.scanned_at) ∧
    (validate_ticket true [("id2", ticketScannedW)] "id2" 7).2 = [("id2", ticketScannedW)] :=
  C3_validate_already_scanned [("id2", ticketScannedW)] "id2" ticketScannedW 7
    (by decide) (by decide)

/-- C5 witness: registration with the sender credential absent. -/
theorem C5_email_failure_no_rollback_witness :
    (register true [] (some testUserBody) 0 none envNoCreds true 0).1 =
      { status := 500, fields := [("error", "Failed to send email. Please try again.")] } ∧
    ∃ t : Ticket,
      List.lookup (uuid4String 0) (register true [] (some testUserBody) 0 none envNoCreds true 0).2 =
        some t ∧
      t.scanned = false :=
  C5_email_failure_no_rollback [] testUserBody 0 none envNoCreds true 0
    (by decide) (by decide) (by decide)

/-- C6 witness: the smoke-test client's malformed-email body. -/
theorem C6_no_email_format_validation_witness :
    (register true [] (some { name := some "Test User", email := some "invalid-email" })
        0 none envWithCreds true 0).1.status ≠ 400 ∧
    (∃ t : Ticket,
      List.lookup (uuid4String 0)
        (register true [] (some { name := some "Test User", email := some "invalid-email" })
          0 none envWithCreds true 0).2 = some t) ∧
    smokeInvalidCases.getD 2 { name := none, email := none } =
      { name := some "Test User", email := some "invalid-email" } ∧
    (∀ env' : EmailEnv, env'.sender_email.getD "" ≠ "" → env'.sender_password.getD "" ≠ "" →
      (register true []
          (some { name := some "Test User", email := some "invalid-email" })
          0 none env' true 0).1.status = 201 ∧
      smokeInvalidCasePasses
        (register true []
            (some { name := some "Test User", email := some "invalid-email" })
            0 none env' true 0).1.status = false) :=
  C6_no_email_format_validation [] { name := some "Test User", email := some "invalid-email" }
    0 none envWithCreds true 0 (by decide) (by decide)

end Esya
